import Mathlib

/-!
Verification of the task-tracking CRUD service (Flask + SQLite, src/app.py).

The embedding models JSON request payloads one level deep (an object or array
of JSON primitives, or a bare primitive), Python truthiness and equality on
those primitives, the validator validate_task, the SQLite-backed task table as
a list of rows plus the AUTOINCREMENT counter, and the five request handlers.
Storage faults are injected through an explicit parameter; an uncaught Python
exception is modelled by the Except error branch of a handler result.
Digits are modelled as ASCII 0-9.
-/

namespace PMD

/-- A JSON primitive value, as delivered by request.get_json(). -/
inductive JPrim where
  | str (s : String)
  | int (n : Int)
  | bool (b : Bool)
  | null
deriving DecidableEq

/-- A JSON payload, modelled one level deep: a bare primitive, an array of
primitives, or an object mapping string keys to primitives. -/
inductive JVal where
  | prim (p : JPrim)
  | arr (xs : List JPrim)
  | obj (fields : List (String × JPrim))
deriving DecidableEq

/-- Python truthiness of a JSON primitive. -/
def truthyP : JPrim → Bool
  | .str s => s ≠ ""
  | .int n => n ≠ 0
  | .bool b => b
  | .null => false

/-- Python truthiness of a JSON payload (empty array and empty object are
falsy). -/
def truthy : JVal → Bool
  | .prim p => truthyP p
  | .arr xs => xs ≠ []
  | .obj fs => fs ≠ []

/-- Python equality on JSON primitives: True equals 1 and False equals 0;
values of otherwise different types are unequal. -/
def pyEq : JPrim → JPrim → Bool
  | .str a, .str b => a = b
  | .int a, .int b => a = b
  | .bool a, .bool b => a = b
  | .int a, .bool b => a = (if b then (1 : Int) else 0)
  | .bool a, .int b => (if a then (1 : Int) else 0) = b
  | .null, .null => true
  | _, _ => false

/-- Dictionary lookup on an object payload, data.get(k). -/
def dget (fs : List (String × JPrim)) (k : String) : Option JPrim :=
  (fs.find? (fun p => p.1 == k)).map (fun p => p.2)

/-- data.get(k, default). -/
def dgetD (fs : List (String × JPrim)) (k : String) (d : JPrim) : JPrim :=
  (dget fs k).getD d

/-- The character class [0-9], the digits matched by the strptime regex
(restricted to ASCII in this model). -/
def isDig (c : Char) : Bool :=
  c = '0' || c = '1' || c = '2' || c = '3' || c = '4' ||
  c = '5' || c = '6' || c = '7' || c = '8' || c = '9'

/-- The character class [1-9]. -/
def dig19 (c : Char) : Bool :=
  c = '1' || c = '2' || c = '3' || c = '4' ||
  c = '5' || c = '6' || c = '7' || c = '8' || c = '9'

/-- Numeric value of an ASCII digit. -/
def dval (c : Char) : Nat := c.toNat - '0'.toNat

/-- The %Y directive: exactly four digits. -/
def parseYear : List Char → Option (Nat × List Char)
  | a :: b :: c :: d :: rest =>
    if isDig a && isDig b && isDig c && isDig d then
      some (1000 * dval a + 100 * dval b + 10 * dval c + dval d, rest)
    else none
  | _ => none

/-- A literal dash in the format string. -/
def parseDash : List Char → Option (List Char)
  | '-' :: rest => some rest
  | _ => none

/-- The %m directive, the regex 1[0-2] or 0[1-9] or [1-9], alternatives tried
in that order (backtracking across the following literal dash cannot change
acceptance, so the greedy first match is taken). -/
def parseMonth : List Char → Option (Nat × List Char)
  | a :: b :: rest =>
    if a = '1' && (b = '0' || b = '1' || b = '2') then some (10 + dval b, rest)
    else if a = '0' && dig19 b then some (dval b, rest)
    else if dig19 a then some (dval a, b :: rest)
    else none
  | [a] => if dig19 a then some (dval a, []) else none
  | [] => none

/-- The %d directive, the regex 3[01] or [12][0-9] or 0[1-9] or [1-9] or
space-[1-9]: CPython also accepts a space-padded day such as ( 5). The
one-character [1-9] alternative and the space alternative are disjoint on
their first character, so the deterministic branch order is faithful. -/
def parseDay : List Char → Option (Nat × List Char)
  | a :: b :: rest =>
    if a = '3' && (b = '0' || b = '1') then some (30 + dval b, rest)
    else if (a = '1' || a = '2') && isDig b then some (10 * dval a + dval b, rest)
    else if a = '0' && dig19 b then some (dval b, rest)
    else if dig19 a then some (dval a, b :: rest)
    else if a = ' ' && dig19 b then some (dval b, rest)
    else none
  | [a] => if dig19 a then some (dval a, []) else none
  | [] => none

/-- Whether a year is a leap year (Gregorian rule, as used by datetime). -/
def isLeap (y : Nat) : Bool := (y % 4 == 0 && y % 100 != 0) || y % 400 == 0

/-- Number of days in a month (the datetime constructor bound for the day). -/
def daysInMonth (y m : Nat) : Nat :=
  if m = 2 then (if isLeap y then 29 else 28)
  else if m = 4 || m = 6 || m = 9 || m = 11 then 30
  else 31

/-- The field match of strptime with format %Y-%m-%d on a character list:
year, month and day fields plus the requirement that no unconverted data
remain. -/
def matchYmd (l : List Char) : Option (Nat × Nat × Nat) :=
  match parseYear l with
  | none => none
  | some (y, r1) =>
    match parseDash r1 with
    | none => none
    | some r2 =>
      match parseMonth r2 with
      | none => none
      | some (m, r3) =>
        match parseDash r3 with
        | none => none
        | some r4 =>
          match parseDay r4 with
          | none => none
          | some (d, r5) => if r5 = [] then some (y, m, d) else none

/-- datetime.strptime(s, %Y-%m-%d) succeeds: the pattern matches the whole
string and the datetime constructor accepts the field values (year at least
one, day within the month; month 1..12 and day at least one are already
guaranteed by the pattern). -/
def strptimeYmdOk (s : String) : Bool :=
  match matchYmd s.data with
  | some (y, m, d) => 1 ≤ y && d ≤ daysInMonth y m
  | none => false

/-- The strict YYYY-MM-DD calendar-date format as worded by the spec, on a
character list: exactly ten characters, a four-digit year of at least one,
a dash, a two-digit month 01 to 12, a dash, and a two-digit day of at least
one that is within the month. This definition follows the wording of the
spec, for comparison with the date acceptance of the code. -/
def specStrictL : List Char → Bool
  | [y1, y2, y3, y4, c1, m1, m2, c2, d1, d2] =>
    isDig y1 && isDig y2 && isDig y3 && isDig y4 &&
    c1 = '-' && c2 = '-' &&
    ((m1 = '0' && dig19 m2) || (m1 = '1' && (m2 = '0' || m2 = '1' || m2 = '2'))) &&
    isDig d1 && isDig d2 &&
    (1 ≤ 1000 * dval y1 + 100 * dval y2 + 10 * dval y3 + dval y4) &&
    (1 ≤ 10 * dval d1 + dval d2) &&
    (10 * dval d1 + dval d2 ≤
      daysInMonth (1000 * dval y1 + 100 * dval y2 + 10 * dval y3 + dval y4)
        (10 * dval m1 + dval m2))
  | _ => false

/-- The strict spec format on a string. -/
def specStrictYMD (s : String) : Bool := specStrictL s.data

/-- Result of running validate_task on a payload: a returned error message,
a clean return of None, or an uncaught Python exception. -/
inductive VRes where
  | valid
  | errMsg (s : String)
  | exc
deriving DecidableEq

/-- The required_fields list of validate_task. -/
def requiredFields : List String := ["title", "priority", "status", "deadline"]

/-- The test inside the presence loop: field not in data or not data[field]. -/
def fieldMissing (fs : List (String × JPrim)) (f : String) : Bool :=
  match dget fs f with
  | none => true
  | some v => !truthyP v

/-- The presence loop of validate_task: the first required field (in order)
that is absent or falsy. -/
def firstMissing (fs : List (String × JPrim)) : Option String :=
  requiredFields.find? (fun f => fieldMissing fs f)

/-- Python membership of a payload value in a list of strings (a non-string
value is never equal to any of them). -/
def pyInStrs (v : JPrim) (ss : List String) : Bool :=
  match v with
  | .str s => ss.contains s
  | _ => false

/-- validate_task on an object payload: presence of the four required fields
in order, then the priority and status enumerations, then strptime on the
deadline with only ValueError caught (a non-string deadline raises TypeError,
modelled as exc). -/
def validate_task (fs : List (String × JPrim)) : VRes :=
  match firstMissing fs with
  | some f => .errMsg (f ++ " is required")
  | none =>
    if !pyInStrs (dgetD fs "priority" .null) ["Low", "Medium", "High"] then
      .errMsg "Invalid priority"
    else if !pyInStrs (dgetD fs "status" .null) ["Pending", "In Progress", "Completed"] then
      .errMsg "Invalid status"
    else
      match dgetD fs "deadline" .null with
      | .str s => if strptimeYmdOk s then .valid else .errMsg "Deadline must be YYYY-MM-DD"
      | _ => .exc

/-- Whether one character list occurs at the head of another. -/
def startsW : List Char → List Char → Bool
  | [], _ => true
  | _ :: _, [] => false
  | a :: as, b :: bs => a = b && startsW as bs

/-- Whether the first character list occurs anywhere inside the second
(Python substring membership, s1 in s2). -/
def hasSub (p : List Char) : List Char → Bool
  | [] => startsW p []
  | c :: rest => startsW p (c :: rest) || hasSub p rest

/-- validate_task applied to an arbitrary payload, following the dynamic
behaviour of the Python membership test field not in data and the indexing
data[field] on each possible payload shape: on an object the real validation
runs; on an array, membership compares elements to the field name and a hit
then raises on string indexing; on a string, membership is a substring test
and a hit then raises on string indexing; on a number, boolean or None the
membership test itself raises TypeError. -/
def validateDyn : JVal → VRes
  | .obj fs => validate_task fs
  | .arr xs => if xs.any (fun v => pyEq v (.str "title")) then .exc else .errMsg "title is required"
  | .prim (.str s) => if hasSub "title".data s.data then .exc else .errMsg "title is required"
  | .prim (.int _) => .exc
  | .prim (.bool _) => .exc
  | .prim .null => .exc

/-- A value as stored by SQLite: NULL, INTEGER or TEXT (Python booleans are
bound as integers; floats and blobs do not occur in this model). -/
inductive SVal where
  | null
  | int (n : Int)
  | text (s : String)
deriving DecidableEq

/-- Binding of a JSON primitive as a parameter of one of the TEXT columns of
the tasks table. Every payload-bound column is declared TEXT, and SQLite
TEXT affinity converts a numeric value to its decimal text form before
storing it; Python booleans are bound as the integers 1 and 0 first, so they
are stored as the text 1 and 0; strings and NULL are stored as given. -/
def toSql : JPrim → SVal
  | .str s => .text s
  | .int n => .text (toString n)
  | .bool b => .text (if b then "1" else "0")
  | .null => .null

/-- The Python value read back from a stored SQLite value. -/
def fromSql : SVal → JPrim
  | .null => .null
  | .int n => .int n
  | .text s => .str s

/-- One row of the tasks table (columns in CREATE TABLE order). -/
structure Row where
  id : Nat
  title : SVal
  description : SVal
  priority : SVal
  status : SVal
  deadline : SVal
  created_at : SVal
deriving DecidableEq

/-- The tasks table: its rows in insertion order, plus the AUTOINCREMENT
sequence value, the id the next INSERT will receive. -/
structure Store where
  rows : List Row
  nextId : Nat
deriving DecidableEq

/-- The freshly created database: no rows, AUTOINCREMENT starting at 1. -/
def initStore : Store := ⟨[], 1⟩

/-- The CHECK constraints of the tasks table on one row (NULL passes a SQL
CHECK, so only non-null values are constrained). -/
def rowCheck (r : Row) : Bool :=
  (match r.priority with
   | .null => true
   | v => v = .text "Low" || v = .text "Medium" || v = .text "High") &&
  (match r.status with
   | .null => true
   | v => v = .text "Pending" || v = .text "In Progress" || v = .text "Completed")

/-- The object fields of a payload (empty for a non-object; only reached
after validation, which only objects pass). -/
def fieldsOf : JVal → List (String × JPrim)
  | .obj fs => fs
  | _ => []

/-- The row inserted by create_task: bound field values, the description
defaulting to the empty string, the store-assigned id and timestamp. -/
def mkRow (fs : List (String × JPrim)) (now : String) (id : Nat) : Row :=
  { id := id
  , title := toSql (dgetD fs "title" .null)
  , description := toSql (dgetD fs "description" (.str ""))
  , priority := toSql (dgetD fs "priority" .null)
  , status := toSql (dgetD fs "status" .null)
  , deadline := toSql (dgetD fs "deadline" .null)
  , created_at := .text now }

/-- The UPDATE statement applied to one matching row: every column of the SET
clause is overwritten, id and created_at are not named and keep their
values. -/
def applyUpd (fs : List (String × JPrim)) (r : Row) : Row :=
  { r with
    title := toSql (dgetD fs "title" .null)
  , description := toSql (dgetD fs "description" (.str ""))
  , priority := toSql (dgetD fs "priority" .null)
  , status := toSql (dgetD fs "status" .null)
  , deadline := toSql (dgetD fs "deadline" .null) }

/-- An uncaught Python exception escaping a handler: the TypeError raised by
strptime on a non-string, or a sqlite3 error carrying a message. -/
inductive PyExc where
  | typeError
  | dbError (msg : String)
deriving DecidableEq

/-- A JSON response body: a message object, an error object, one serialized
task, or a list of serialized tasks. -/
inductive Resp where
  | jmsg (s : String)
  | jerr (s : String)
  | jtask (fields : List (String × JPrim))
  | jtasks (items : List (List (String × JPrim)))
deriving DecidableEq

/-- dict(task) for one row: all seven columns, in table order. -/
def rowToJson (r : Row) : List (String × JPrim) :=
  [ ("id", .int (r.id : Int))
  , ("title", fromSql r.title)
  , ("description", fromSql r.description)
  , ("priority", fromSql r.priority)
  , ("status", fromSql r.status)
  , ("deadline", fromSql r.deadline)
  , ("created_at", fromSql r.created_at) ]

/-- Outcome of one handler call: either a status code and body together with
the store after the call, or an uncaught exception. -/
abbrev HResult := Except PyExc ((Nat × Resp) × Store)

/-- POST /tasks. A falsy body is rejected as invalid JSON before validation;
a validation error message gives a 400; an exception raised by the validator
propagates (the try block starts after validation); inside the try block a
storage fault is caught and mapped to a generic 500; otherwise the row is
inserted with the next AUTOINCREMENT id and the current timestamp. -/
def create_task (data : JVal) (now : String) (fault : Option String) (st : Store) : HResult :=
  if truthy data = false then .ok ((400, .jerr "Request body must be valid JSON"), st)
  else
    match validateDyn data with
    | .errMsg e => .ok ((400, .jerr e), st)
    | .exc => .error .typeError
    | .valid =>
      match fault with
      | some _ => .ok ((500, .jerr "Internal server error"), st)
      | none =>
        .ok ((201, .jmsg "Task created"),
             ⟨st.rows ++ [mkRow (fieldsOf data) now st.nextId], st.nextId + 1⟩)

/-- GET /tasks. The whole body is inside a try block: a storage fault is
caught and mapped to a generic 500; otherwise all rows are returned in
storage order. -/
def get_tasks (fault : Option String) (st : Store) : HResult :=
  match fault with
  | some _ => .ok ((500, .jerr "Internal server error"), st)
  | none => .ok ((200, .jtasks (st.rows.map rowToJson)), st)

/-- GET /tasks/id. There is no try block: a storage fault propagates as an
uncaught exception. Otherwise the first row with the id is returned, or a
404 if none matches. -/
def get_task (id : Nat) (fault : Option String) (st : Store) : HResult :=
  match fault with
  | some m => .error (.dbError m)
  | none =>
    match st.rows.find? (fun r => r.id == id) with
    | none => .ok ((404, .jerr "Task not found"), st)
    | some r => .ok ((200, .jtask (rowToJson r)), st)

/-- PUT /tasks/id. A falsy body is rejected as invalid JSON; a validation
error gives a 400; a validator exception propagates; there is no try block,
so a storage fault also propagates; otherwise the UPDATE overwrites the five
SET columns of every row matching the id, and the rowcount decides between
200 and 404 (the store is returned as the statement leaves it). -/
def update_task (id : Nat) (data : JVal) (fault : Option String) (st : Store) : HResult :=
  if truthy data = false then .ok ((400, .jerr "Request body must be valid JSON"), st)
  else
    match validateDyn data with
    | .errMsg e => .ok ((400, .jerr e), st)
    | .exc => .error .typeError
    | .valid =>
      match fault with
      | some m => .error (.dbError m)
      | none =>
        let matched := st.rows.countP (fun r => r.id == id)
        let rows2 := st.rows.map (fun r => if r.id = id then applyUpd (fieldsOf data) r else r)
        if matched = 0 then .ok ((404, .jerr "Task not found"), ⟨rows2, st.nextId⟩)
        else .ok ((200, .jmsg "Task updated"), ⟨rows2, st.nextId⟩)

/-- DELETE /tasks/id. There is no try block, so a storage fault propagates;
otherwise the DELETE removes every row matching the id and the rowcount
decides between 200 and 404. -/
def delete_task (id : Nat) (fault : Option String) (st : Store) : HResult :=
  match fault with
  | some m => .error (.dbError m)
  | none =>
    let deleted := st.rows.countP (fun r => r.id == id)
    let rows2 := st.rows.filter (fun r => r.id != id)
    if deleted = 0 then .ok ((404, .jerr "Task not found"), ⟨rows2, st.nextId⟩)
    else .ok ((200, .jmsg "Task deleted"), ⟨rows2, st.nextId⟩)

/-- The store states reachable from the fresh database through fault-free
handler calls that return (GET handlers never modify the store). -/
inductive Reachable : Store → Prop where
  | init : Reachable initStore
  | create {st st2 : Store} {d : JVal} {now : String} {resp : Nat × Resp} :
      Reachable st → create_task d now none st = .ok (resp, st2) → Reachable st2
  | update {st st2 : Store} {i : Nat} {d : JVal} {resp : Nat × Resp} :
      Reachable st → update_task i d none st = .ok (resp, st2) → Reachable st2
  | delete {st st2 : Store} {i : Nat} {resp : Nat × Resp} :
      Reachable st → delete_task i none st = .ok (resp, st2) → Reachable st2

/-! ## Helper lemmas -/

/-- A string bound into a TEXT column reads back unchanged; the same is not
true of numeric values, which TEXT affinity stores as text. -/
theorem fromSql_toSql_str (s : String) : fromSql (toSql (.str s)) = .str s := rfl

/-- A required field that is not missing is present and truthy. -/
theorem fieldMissing_false_inv {fs : List (String × JPrim)} {f : String}
    (h : fieldMissing fs f = false) : ∃ v, dget fs f = some v ∧ truthyP v = true := by
  unfold fieldMissing at h
  cases hv : dget fs f with
  | none => rw [hv] at h; simp at h
  | some v => rw [hv] at h; simp at h; exact ⟨v, rfl, h⟩

/-- If the presence loop finds nothing, each of the four required fields is
present and truthy. -/
theorem firstMissing_none_inv {fs : List (String × JPrim)} (h : firstMissing fs = none) :
    fieldMissing fs "title" = false ∧ fieldMissing fs "priority" = false ∧
    fieldMissing fs "status" = false ∧ fieldMissing fs "deadline" = false := by
  unfold firstMissing requiredFields at h
  have hall := List.find?_eq_none.mp h
  refine ⟨?_, ?_, ?_, ?_⟩ <;>
    simpa using hall _ (by simp)

/-- A successful Python membership test against a list of strings means the
value is one of those strings. -/
theorem pyInStrs_inv {v : JPrim} {ss : List String} (h : pyInStrs v ss = true) :
    ∃ s, v = .str s ∧ s ∈ ss := by
  cases v with
  | str s =>
    refine ⟨s, rfl, ?_⟩
    simpa [pyInStrs] using h
  | int n => simp [pyInStrs] at h
  | bool b => simp [pyInStrs] at h
  | null => simp [pyInStrs] at h

/-- Inversion of a clean validate_task run: no field missing, both
enumeration tests pass, and the deadline is a string strptime accepts. -/
theorem validate_task_valid_inv {fs : List (String × JPrim)}
    (h : validate_task fs = .valid) :
    firstMissing fs = none ∧
    pyInStrs (dgetD fs "priority" .null) ["Low", "Medium", "High"] = true ∧
    pyInStrs (dgetD fs "status" .null) ["Pending", "In Progress", "Completed"] = true ∧
    ∃ s, dgetD fs "deadline" .null = .str s ∧ strptimeYmdOk s = true := by
  unfold validate_task at h
  cases hm : firstMissing fs with
  | some f => rw [hm] at h; simp at h
  | none =>
    rw [hm] at h
    refine ⟨rfl, ?_⟩
    by_cases hp : pyInStrs (dgetD fs "priority" .null) ["Low", "Medium", "High"] = true
    · rw [hp] at h
      simp only [Bool.not_true, Bool.false_eq_true, if_false] at h
      refine ⟨hp, ?_⟩
      by_cases hq : pyInStrs (dgetD fs "status" .null) ["Pending", "In Progress", "Completed"] = true
      · rw [hq] at h
        simp only [Bool.not_true, Bool.false_eq_true, if_false] at h
        refine ⟨hq, ?_⟩
        cases hd : dgetD fs "deadline" .null with
        | str s =>
          rw [hd] at h
          by_cases hok : strptimeYmdOk s = true
          · exact ⟨s, rfl, hok⟩
          · simp [hok] at h
        | int n => rw [hd] at h; simp at h
        | bool b => rw [hd] at h; simp at h
        | null => rw [hd] at h; simp at h
      · rw [Bool.eq_false_iff.mpr hq] at h; simp at h
    · rw [Bool.eq_false_iff.mpr hp] at h; simp at h

/-- A payload that validates has a nonempty field list. -/
theorem validate_task_valid_ne_nil {fs : List (String × JPrim)}
    (h : validate_task fs = .valid) : fs ≠ [] := by
  intro hnil
  subst hnil
  simp [validate_task, firstMissing, requiredFields, fieldMissing, dget] at h

/-- A payload that validates is truthy as a request body. -/
theorem truthy_obj_of_valid {fs : List (String × JPrim)}
    (h : validate_task fs = .valid) : truthy (.obj fs) = true := by
  simp [truthy, validate_task_valid_ne_nil h]

/-- Only an object payload can pass the dynamic validation. -/
theorem validateDyn_valid_inv {data : JVal} (h : validateDyn data = .valid) :
    ∃ fs, data = .obj fs ∧ validate_task fs = .valid := by
  cases data with
  | obj fs => exact ⟨fs, rfl, h⟩
  | arr xs =>
    simp only [validateDyn] at h
    split at h <;> simp at h
  | prim p =>
    cases p with
    | str s =>
      simp only [validateDyn] at h
      split at h <;> simp at h
    | int n => simp [validateDyn] at h
    | bool b => simp [validateDyn] at h
    | null => simp [validateDyn] at h

/-- An UPDATE whose WHERE clause matches no row rewrites nothing. -/
theorem map_upd_id {l : List Row} {id : Nat} {fs : List (String × JPrim)}
    (h : ∀ r ∈ l, r.id ≠ id) :
    l.map (fun r => if r.id = id then applyUpd fs r else r) = l := by
  induction l with
  | nil => rfl
  | cons a as ih =>
    have ha := h a (List.mem_cons_self a as)
    simp only [List.map_cons, if_neg ha, List.cons.injEq, true_and]
    exact ih (fun r hr => h r (List.mem_cons_of_mem a hr))

/-- The rowcount of a statement whose WHERE clause matches no row is zero. -/
theorem countP_zero_of_not_mem {l : List Row} {id : Nat}
    (h : ∀ r ∈ l, r.id ≠ id) : l.countP (fun r => r.id == id) = 0 := by
  apply List.countP_eq_zero.mpr
  intro r hr
  simp [h r hr]

/-- Finding a row in an appended list when the first part has no match. -/
theorem find?_append_of_none {l1 l2 : List Row} {p : Row → Bool}
    (h : ∀ r ∈ l1, p r = false) : (l1 ++ l2).find? p = l2.find? p := by
  induction l1 with
  | nil => rfl
  | cons a as ih =>
    have ha := h a (List.mem_cons_self a as)
    simp only [List.cons_append, List.find?_cons, ha]
    exact ih (fun r hr => h r (List.mem_cons_of_mem a hr))

/-- A fault-free DELETE always returns the store with every matching row
removed, whatever the status code. -/
theorem delete_task_none_store {id : Nat} {st st2 : Store} {r1 : Nat × Resp}
    (h : delete_task id none st = .ok (r1, st2)) :
    st2 = ⟨st.rows.filter (fun r => r.id != id), st.nextId⟩ := by
  simp only [delete_task] at h
  split at h <;> (simp only [Except.ok.injEq, Prod.mk.injEq] at h; exact h.2.symm)

/-- DELETE on an id with no matching row: 404 and an unchanged store. -/
theorem delete_gone (id : Nat) (st : Store) (h : ∀ r ∈ st.rows, r.id ≠ id) :
    delete_task id none st = .ok ((404, .jerr "Task not found"), st) := by
  have h1 : st.rows.countP (fun r => r.id == id) = 0 := countP_zero_of_not_mem h
  have h2 : st.rows.filter (fun r => r.id != id) = st.rows :=
    List.filter_eq_self.mpr (fun r hr => by simp [h r hr])
  simp [delete_task, h1, h2]

/-! ## Claims -/

/-- Claim C9: the validator is not total over untyped payloads. With valid
title, priority and status and a truthy non-string deadline (the integer 5),
validate_task neither returns an error string nor None: strptime raises
TypeError, which the except ValueError handler does not catch, and the
exception escapes create_task as well, since validation runs before the try
block. -/
theorem C9_validate_nonstring_deadline_raises :
    validate_task [("title", .str "A"), ("priority", .str "Low"),
      ("status", .str "Pending"), ("deadline", .int 5)] = .exc ∧
    create_task (.obj [("title", .str "A"), ("priority", .str "Low"),
      ("status", .str "Pending"), ("deadline", .int 5)])
      "2025-05-01T10:00:00" none initStore = .error .typeError :=
  ⟨rfl, rfl⟩

/-- Claim C10: a request body that parses as a falsy JSON value (empty
object, empty array, zero, false, null) is rejected by POST /tasks and by
PUT /tasks/id as a malformed request, 400 with the invalid-JSON error, never
reaching a field-level validation message, whatever the store or fault
state. -/
theorem C10_falsy_body_rejected (data : JVal) (id : Nat) (now : String)
    (fault : Option String) (st : Store) (h : truthy data = false) :
    create_task data now fault st =
      .ok ((400, .jerr "Request body must be valid JSON"), st) ∧
    update_task id data fault st =
      .ok ((400, .jerr "Request body must be valid JSON"), st) := by
  unfold create_task update_task
  rw [h]
  simp

/-- Witness for C10 at the concrete falsy bodies of the claim. -/
theorem C10_falsy_body_rejected_witness :
    create_task (.obj []) "2025-05-01T10:00:00" none initStore =
      .ok ((400, .jerr "Request body must be valid JSON"), initStore) ∧
    update_task 1 (.arr []) none initStore =
      .ok ((400, .jerr "Request body must be valid JSON"), initStore) ∧
    update_task 1 (.prim (.int 0)) none initStore =
      .ok ((400, .jerr "Request body must be valid JSON"), initStore) ∧
    create_task (.prim (.bool false)) "T" none initStore =
      .ok ((400, .jerr "Request body must be valid JSON"), initStore) ∧
    create_task (.prim .null) "T" none initStore =
      .ok ((400, .jerr "Request body must be valid JSON"), initStore) :=
  ⟨(C10_falsy_body_rejected (.obj []) 1 "2025-05-01T10:00:00" none initStore rfl).1,
   (C10_falsy_body_rejected (.arr []) 1 "T" none initStore rfl).2,
   (C10_falsy_body_rejected (.prim (.int 0)) 1 "T" none initStore rfl).2,
   (C10_falsy_body_rejected (.prim (.bool false)) 1 "T" none initStore rfl).1,
   (C10_falsy_body_rejected (.prim .null) 1 "T" none initStore rfl).1⟩

/-- Claim C7: deleteById is idempotent in effect. After any fault-free
delete of an id, deleting the same id again returns 404 without raising and
leaves the store exactly as it was; and an id that never existed yields 404
already on the first delete, with the store unchanged. -/
theorem C7_delete_idempotent (id : Nat) (st st2 : Store) (r1 : Nat × Resp)
    (h : delete_task id none st = .ok (r1, st2)) :
    delete_task id none st2 = .ok ((404, .jerr "Task not found"), st2) ∧
    ((∀ r ∈ st.rows, r.id ≠ id) →
      delete_task id none st = .ok ((404, .jerr "Task not found"), st)) := by
  constructor
  · have hst := delete_task_none_store h
    subst hst
    apply delete_gone
    intro r hr
    have hf := (List.mem_filter.mp hr).2
    simpa using hf
  · intro hnone
    exact delete_gone id st hnone

/-- Witness for C7: a first delete on the empty store, then the second. -/
theorem C7_delete_idempotent_witness :
    delete_task 1 none initStore = .ok ((404, .jerr "Task not found"), initStore) :=
  (C7_delete_idempotent 1 initStore initStore (404, .jerr "Task not found") rfl).1

/-- Claim C4: a validated update aimed at an id with no matching row returns
404 and leaves the store completely unchanged, row count and rows alike. -/
theorem C4_update_nonexistent_id_404 (id : Nat) (data : JVal) (st : Store)
    (hv : validateDyn data = .valid) (hid : ∀ r ∈ st.rows, r.id ≠ id) :
    update_task id data none st = .ok ((404, .jerr "Task not found"), st) := by
  obtain ⟨fs, rfl, hval⟩ := validateDyn_valid_inv hv
  have ht := truthy_obj_of_valid hval
  unfold update_task
  rw [ht]
  simp [validateDyn, hval, countP_zero_of_not_mem hid, map_upd_id hid, fieldsOf]

/-- Witness for C4: the end-to-end PUT /tasks/999 example of the spec. -/
theorem C4_update_nonexistent_id_404_witness :
    update_task 999 (.obj [("title", .str "A"), ("priority", .str "Low"),
      ("status", .str "Pending"), ("deadline", .str "2025-01-01")]) none initStore =
      .ok ((404, .jerr "Task not found"), initStore) :=
  C4_update_nonexistent_id_404 999 _ initStore (by decide) (by simp [initStore])

/-! ## Date parsing lemmas -/

/-- Enumeration of the characters in the class [0-9]. -/
theorem isDig_cases {c : Char} (h : isDig c = true) :
    c = '0' ∨ c = '1' ∨ c = '2' ∨ c = '3' ∨ c = '4' ∨
    c = '5' ∨ c = '6' ∨ c = '7' ∨ c = '8' ∨ c = '9' := by
  simp [isDig] at h
  tauto

/-- Enumeration of the characters in the class [1-9]. -/
theorem dig19_cases {c : Char} (h : dig19 c = true) :
    c = '1' ∨ c = '2' ∨ c = '3' ∨ c = '4' ∨
    c = '5' ∨ c = '6' ∨ c = '7' ∨ c = '8' ∨ c = '9' := by
  simp [dig19] at h
  tauto

/-- No month has more than 31 days. -/
theorem daysInMonth_le_31 (y m : Nat) : daysInMonth y m ≤ 31 := by
  unfold daysInMonth
  split
  · split <;> omega
  · split <;> omega

/-- The %Y directive consumes four digits. -/
theorem parseYear_digits {a b c d : Char} {rest : List Char}
    (ha : isDig a = true) (hb : isDig b = true)
    (hc : isDig c = true) (hd : isDig d = true) :
    parseYear (a :: b :: c :: d :: rest) =
      some (1000 * dval a + 100 * dval b + 10 * dval c + dval d, rest) := by
  simp [parseYear, ha, hb, hc, hd]

/-- On a two-digit month of the strict form, %m consumes both digits. -/
theorem parseMonth_spec {m1 m2 : Char} {rest : List Char}
    (h : (m1 = '0' ∧ dig19 m2 = true) ∨
         (m1 = '1' ∧ (m2 = '0' ∨ m2 = '1' ∨ m2 = '2'))) :
    parseMonth (m1 :: m2 :: rest) = some (10 * dval m1 + dval m2, rest) := by
  rcases h with ⟨rfl, h2⟩ | ⟨rfl, h2⟩
  · rcases dig19_cases h2 with rfl | rfl | rfl | rfl | rfl | rfl | rfl | rfl | rfl <;> rfl
  · rcases h2 with rfl | rfl | rfl <;> rfl

/-- On a two-digit day that lies within some month, %d consumes both
digits. -/
theorem parseDay_spec {d1 d2 : Char} {rest : List Char} {y m : Nat}
    (h1 : isDig d1 = true) (h2 : isDig d2 = true)
    (hlo : 1 ≤ 10 * dval d1 + dval d2)
    (hhi : 10 * dval d1 + dval d2 ≤ daysInMonth y m) :
    parseDay (d1 :: d2 :: rest) = some (10 * dval d1 + dval d2, rest) := by
  have hhi31 : 10 * dval d1 + dval d2 ≤ 31 := le_trans hhi (daysInMonth_le_31 y m)
  clear hhi
  rcases isDig_cases h1 with rfl | rfl | rfl | rfl | rfl | rfl | rfl | rfl | rfl | rfl <;>
    rcases isDig_cases h2 with rfl | rfl | rfl | rfl | rfl | rfl | rfl | rfl | rfl | rfl <;>
    first
      | rfl
      | (exfalso; revert hlo hhi31; decide)

/-- Every string of the strict spec format is matched by the strptime
pattern, yielding its year, month and day. -/
theorem specStrictL_accepted {l : List Char} (h : specStrictL l = true) :
    ∃ y m d, matchYmd l = some (y, m, d) ∧ 1 ≤ y ∧ d ≤ daysInMonth y m := by
  rcases l with _ | ⟨y1, _ | ⟨y2, _ | ⟨y3, _ | ⟨y4, _ | ⟨c1, _ | ⟨m1, _ | ⟨m2, _ | ⟨c2, _ | ⟨d1, _ | ⟨d2, _ | ⟨e, t⟩⟩⟩⟩⟩⟩⟩⟩⟩⟩⟩
  case nil => exact Bool.noConfusion h
  case cons.nil => exact Bool.noConfusion h
  case cons.cons.nil => exact Bool.noConfusion h
  case cons.cons.cons.nil => exact Bool.noConfusion h
  case cons.cons.cons.cons.nil => exact Bool.noConfusion h
  case cons.cons.cons.cons.cons.nil => exact Bool.noConfusion h
  case cons.cons.cons.cons.cons.cons.nil => exact Bool.noConfusion h
  case cons.cons.cons.cons.cons.cons.cons.nil => exact Bool.noConfusion h
  case cons.cons.cons.cons.cons.cons.cons.cons.nil => exact Bool.noConfusion h
  case cons.cons.cons.cons.cons.cons.cons.cons.cons.nil => exact Bool.noConfusion h
  case cons.cons.cons.cons.cons.cons.cons.cons.cons.cons.cons => exact Bool.noConfusion h
  case cons.cons.cons.cons.cons.cons.cons.cons.cons.cons.nil =>
    simp only [specStrictL, Bool.and_eq_true, Bool.or_eq_true, decide_eq_true_eq] at h
    obtain ⟨⟨⟨⟨⟨⟨⟨⟨⟨⟨⟨hy1, hy2⟩, hy3⟩, hy4⟩, hc1⟩, hc2⟩, hmon⟩, hd1⟩, hd2⟩, hy⟩, hlo⟩, hhi⟩ := h
    subst hc1
    subst hc2
    refine ⟨1000 * dval y1 + 100 * dval y2 + 10 * dval y3 + dval y4,
            10 * dval m1 + dval m2, 10 * dval d1 + dval d2, ?_, hy, hhi⟩
    have hmon2 : (m1 = '0' ∧ dig19 m2 = true) ∨
        (m1 = '1' ∧ (m2 = '0' ∨ m2 = '1' ∨ m2 = '2')) := by
      rcases hmon with ⟨h1, h2⟩ | ⟨h1, h2⟩
      · exact Or.inl ⟨h1, h2⟩
      · exact Or.inr ⟨h1, by tauto⟩
    unfold matchYmd
    rw [parseYear_digits hy1 hy2 hy3 hy4]
    simp only [parseDash]
    rw [parseMonth_spec hmon2]
    simp only [parseDash]
    rw [parseDay_spec hd1 hd2 hlo hhi]
    rfl

/-- Every string of the strict spec format is accepted by strptime. -/
theorem specStrict_strptime {s : String} (h : specStrictYMD s = true) :
    strptimeYmdOk s = true := by
  obtain ⟨y, m, d, hm, hy, hd⟩ := specStrictL_accepted h
  unfold strptimeYmdOk
  rw [hm]
  simp [hy, hd]

/-- A payload with valid title, priority and status and the given deadline
string, used to isolate the deadline rule. -/
def deadlinePayload (s : String) : List (String × JPrim) :=
  [("title", .str "A"), ("priority", .str "Low"),
   ("status", .str "Pending"), ("deadline", .str s)]

/-- On a nonempty deadline string, validation reduces to the strptime
test. -/
theorem deadlinePayload_validate (s : String) (hs : s ≠ "") :
    validate_task (deadlinePayload s) =
      (if strptimeYmdOk s = true then .valid
       else .errMsg "Deadline must be YYYY-MM-DD") := by
  have hfm : firstMissing (deadlinePayload s) = none := by
    simp [firstMissing, requiredFields, fieldMissing, dget, deadlinePayload,
      List.find?, truthyP, hs]
  unfold validate_task
  rw [hfm]
  rfl

/-! ## Claims C2 and C3 -/

/-- Claim C2: the validator checks presence of title, priority, status and
deadline in that fixed order and reports the first absent-or-falsy field
before any enumeration or format rule runs, whatever the other field values;
the payload with only a title gets the priority-required message, and POST
surfaces it as a 400 with that error body. -/
theorem C2_required_fields_in_order (fs : List (String × JPrim)) (now : String)
    (fault : Option String) (st : Store) :
    (fieldMissing fs "title" = true →
      validate_task fs = .errMsg "title is required") ∧
    (fieldMissing fs "title" = false → fieldMissing fs "priority" = true →
      validate_task fs = .errMsg "priority is required") ∧
    (fieldMissing fs "title" = false → fieldMissing fs "priority" = false →
      fieldMissing fs "status" = true →
      validate_task fs = .errMsg "status is required") ∧
    (fieldMissing fs "title" = false → fieldMissing fs "priority" = false →
      fieldMissing fs "status" = false → fieldMissing fs "deadline" = true →
      validate_task fs = .errMsg "deadline is required") ∧
    validate_task [("title", .str "A")] = .errMsg "priority is required" ∧
    create_task (.obj [("title", .str "A")]) now fault st =
      .ok ((400, .jerr "priority is required"), st) := by
  refine ⟨?_, ?_, ?_, ?_, by decide, ?_⟩
  · intro h1
    unfold validate_task firstMissing requiredFields
    rw [List.find?_cons_of_pos _ h1]
    rfl
  · intro h1 h2
    unfold validate_task firstMissing requiredFields
    rw [List.find?_cons_of_neg _ (by simp [h1]), List.find?_cons_of_pos _ h2]
    rfl
  · intro h1 h2 h3
    unfold validate_task firstMissing requiredFields
    rw [List.find?_cons_of_neg _ (by simp [h1]), List.find?_cons_of_neg _ (by simp [h2]),
      List.find?_cons_of_pos _ h3]
    rfl
  · intro h1 h2 h3 h4
    unfold validate_task firstMissing requiredFields
    rw [List.find?_cons_of_neg _ (by simp [h1]), List.find?_cons_of_neg _ (by simp [h2]),
      List.find?_cons_of_neg _ (by simp [h3]), List.find?_cons_of_pos _ h4]
    rfl
  · rfl

/-- Witness for C2: the first missing field wins at concrete payloads, in
particular over an invalid priority. -/
theorem C2_required_fields_in_order_witness :
    validate_task [("priority", .str "WRONG")] = .errMsg "title is required" ∧
    validate_task [("title", .str "A")] = .errMsg "priority is required" ∧
    validate_task [("title", .str "A"), ("priority", .str "Low")] =
      .errMsg "status is required" ∧
    validate_task [("title", .str "A"), ("priority", .str "Low"),
      ("status", .str "Pending")] = .errMsg "deadline is required" :=
  ⟨(C2_required_fields_in_order [("priority", .str "WRONG")] "T" none initStore).1
      (by decide),
   (C2_required_fields_in_order [("title", .str "A")] "T" none initStore).2.1
      (by decide) (by decide),
   (C2_required_fields_in_order [("title", .str "A"), ("priority", .str "Low")]
      "T" none initStore).2.2.1 (by decide) (by decide) (by decide),
   (C2_required_fields_in_order [("title", .str "A"), ("priority", .str "Low"),
      ("status", .str "Pending")] "T" none initStore).2.2.2.1
      (by decide) (by decide) (by decide) (by decide)⟩

/-- Claim C3 counterexample: the empty deadline fails with the
required-field message, not the format message, and the single-digit date
2024-1-1, which is not of the strict two-digit form, passes validation. -/
theorem C3_strict_format_counterexample :
    validate_task (deadlinePayload "") = .errMsg "deadline is required" ∧
    validate_task (deadlinePayload "2024-1-1") = .valid ∧
    specStrictYMD "2024-1-1" = false := by
  refine ⟨by decide, by decide, by decide⟩

/-- Claim C3 (amended): the validator accepts a deadline exactly when
strptime with format %Y-%m-%d does: a four-digit year of at least one, a
one-or-two-digit month, and a day written with one or two digits or as a
space followed by a nonzero digit, forming a valid calendar date. The
values 2024-13-01 and 01-01-2024 fail with the format message, the empty
string fails earlier with the required-field message, 2024-02-29 passes,
every strict YYYY-MM-DD calendar date passes, and single-digit forms such
as 2024-1-1 and space-padded days such as 2024-01- 5 pass as well. -/
theorem C3_deadline_strptime_amended (s : String) :
    validate_task (deadlinePayload "2024-13-01") =
      .errMsg "Deadline must be YYYY-MM-DD" ∧
    validate_task (deadlinePayload "01-01-2024") =
      .errMsg "Deadline must be YYYY-MM-DD" ∧
    validate_task (deadlinePayload "") = .errMsg "deadline is required" ∧
    validate_task (deadlinePayload "2024-02-29") = .valid ∧
    validate_task (deadlinePayload "2024-1-1") = .valid ∧
    validate_task (deadlinePayload "2024-01- 5") = .valid ∧
    (validate_task (deadlinePayload s) = .valid ↔ strptimeYmdOk s = true) ∧
    (specStrictYMD s = true → validate_task (deadlinePayload s) = .valid) := by
  have hiff : validate_task (deadlinePayload s) = .valid ↔ strptimeYmdOk s = true := by
    by_cases hs : s = ""
    · subst hs
      constructor
      · intro h; exact absurd h (by decide)
      · intro h; exact absurd h (by decide)
    · rw [deadlinePayload_validate s hs]
      by_cases hok : strptimeYmdOk s = true
      · simp [hok]
      · simp [hok]
  refine ⟨by decide, by decide, by decide, by decide, by decide, by decide, hiff, ?_⟩
  intro hstrict
  exact hiff.mpr (specStrict_strptime hstrict)

/-- Witness for C3 (amended) at a strict-format date. -/
theorem C3_deadline_strptime_amended_witness :
    validate_task (deadlinePayload "2025-12-31") = .valid :=
  (C3_deadline_strptime_amended "2025-12-31").2.2.2.2.2.2.2 (by decide)

/-! ## Handler inversion lemmas -/

/-- A fault-free create either leaves the store alone (rejected request) or
appends exactly the new row and advances the id sequence. -/
theorem create_task_ok_inv {d : JVal} {now : String} {st : Store}
    {resp : Nat × Resp} {st2 : Store}
    (h : create_task d now none st = .ok (resp, st2)) :
    st2 = st ∨
    (validateDyn d = .valid ∧
     st2 = ⟨st.rows ++ [mkRow (fieldsOf d) now st.nextId], st.nextId + 1⟩) := by
  unfold create_task at h
  split at h
  · simp only [Except.ok.injEq, Prod.mk.injEq] at h
    exact Or.inl h.2.symm
  · split at h
    case h_1 e heq =>
      simp only [Except.ok.injEq, Prod.mk.injEq] at h
      exact Or.inl h.2.symm
    case h_2 heq => simp at h
    case h_3 heq =>
      simp only [Except.ok.injEq, Prod.mk.injEq] at h
      exact Or.inr ⟨heq, h.2.symm⟩

/-- A fault-free update either leaves the store alone (rejected request) or
rewrites exactly the matching rows, keeping the id sequence. -/
theorem update_task_ok_inv {id : Nat} {d : JVal} {st : Store}
    {resp : Nat × Resp} {st2 : Store}
    (h : update_task id d none st = .ok (resp, st2)) :
    st2 = st ∨
    (validateDyn d = .valid ∧
     st2 = ⟨st.rows.map (fun r => if r.id = id then applyUpd (fieldsOf d) r else r),
            st.nextId⟩) := by
  unfold update_task at h
  split at h
  · simp only [Except.ok.injEq, Prod.mk.injEq] at h
    exact Or.inl h.2.symm
  · split at h
    case h_1 e heq =>
      simp only [Except.ok.injEq, Prod.mk.injEq] at h
      exact Or.inl h.2.symm
    case h_2 heq => simp at h
    case h_3 heq =>
      simp only at h
      split at h <;>
        (simp only [Except.ok.injEq, Prod.mk.injEq] at h; exact Or.inr ⟨heq, h.2.symm⟩)

/-- Rewriting matched rows does not change the id column. -/
theorem map_upd_ids (l : List Row) (id : Nat) (fs : List (String × JPrim)) :
    (l.map (fun r => if r.id = id then applyUpd fs r else r)).map Row.id =
      l.map Row.id := by
  induction l with
  | nil => rfl
  | cons a as ih =>
    simp only [List.map_cons, ih]
    by_cases h : a.id = id
    · rw [if_pos h]
      rfl
    · rw [if_neg h]

/-- Rewriting matched rows does not change the created_at column. -/
theorem map_upd_created (l : List Row) (id : Nat) (fs : List (String × JPrim)) :
    (l.map (fun r => if r.id = id then applyUpd fs r else r)).map Row.created_at =
      l.map Row.created_at := by
  induction l with
  | nil => rfl
  | cons a as ih =>
    simp only [List.map_cons, ih]
    by_cases h : a.id = id
    · rw [if_pos h]
      rfl
    · rw [if_neg h]

/-- The priority and status an insert binds for a validated payload are
enumeration members stored as text. -/
theorem mkRow_enums {fs : List (String × JPrim)} {now : String} {id : Nat}
    (h : validate_task fs = .valid) :
    (∃ p, (mkRow fs now id).priority = SVal.text p ∧
      p ∈ (["Low", "Medium", "High"] : List String)) ∧
    (∃ q, (mkRow fs now id).status = SVal.text q ∧
      q ∈ (["Pending", "In Progress", "Completed"] : List String)) := by
  obtain ⟨-, hp, hq, -⟩ := validate_task_valid_inv h
  obtain ⟨p, hp1, hp2⟩ := pyInStrs_inv hp
  obtain ⟨q, hq1, hq2⟩ := pyInStrs_inv hq
  refine ⟨⟨p, ?_, hp2⟩, ⟨q, ?_, hq2⟩⟩
  · simp [mkRow, hp1, toSql]
  · simp [mkRow, hq1, toSql]

/-- The priority and status an UPDATE binds for a validated payload are
enumeration members stored as text. -/
theorem applyUpd_enums {fs : List (String × JPrim)} {r : Row}
    (h : validate_task fs = .valid) :
    (∃ p, (applyUpd fs r).priority = SVal.text p ∧
      p ∈ (["Low", "Medium", "High"] : List String)) ∧
    (∃ q, (applyUpd fs r).status = SVal.text q ∧
      q ∈ (["Pending", "In Progress", "Completed"] : List String)) := by
  obtain ⟨-, hp, hq, -⟩ := validate_task_valid_inv h
  obtain ⟨p, hp1, hp2⟩ := pyInStrs_inv hp
  obtain ⟨q, hq1, hq2⟩ := pyInStrs_inv hq
  refine ⟨⟨p, ?_, hp2⟩, ⟨q, ?_, hq2⟩⟩
  · simp [applyUpd, hp1, toSql]
  · simp [applyUpd, hq1, toSql]

/-- Enumeration members stored as text satisfy the CHECK constraints of the
tasks table. -/
theorem rowCheck_of_enums {r : Row}
    (hp : ∃ p, r.priority = SVal.text p ∧
      p ∈ (["Low", "Medium", "High"] : List String))
    (hq : ∃ q, r.status = SVal.text q ∧
      q ∈ (["Pending", "In Progress", "Completed"] : List String)) :
    rowCheck r = true := by
  obtain ⟨p, hp1, hp2⟩ := hp
  obtain ⟨q, hq1, hq2⟩ := hq
  unfold rowCheck
  rw [hp1, hq1]
  simp only [List.mem_cons, List.mem_singleton, List.not_mem_nil, or_false] at hp2 hq2
  rcases hp2 with rfl | rfl | rfl <;> rcases hq2 with rfl | rfl | rfl <;> rfl

/-- Claim C5 counterexample: updating an existing task with the integer
title 123 passes validation, but the TEXT column stores the text 123, not
the supplied value: reading the stored title back gives the string 123,
which Python equality distinguishes from the supplied integer. -/
theorem C5_affinity_counterexample :
    validate_task [("title", .int 123), ("priority", .str "Low"),
      ("status", .str "Pending"), ("deadline", .str "2025-01-01")] = .valid ∧
    update_task 1 (.obj [("title", .int 123), ("priority", .str "Low"),
        ("status", .str "Pending"), ("deadline", .str "2025-01-01")]) none
        (⟨[⟨1, .text "A", .text "", .text "Low", .text "Pending",
            .text "2025-01-01", .text "T0"⟩], 2⟩ : Store) =
      .ok ((200, .jmsg "Task updated"),
        ⟨[⟨1, .text "123", .text "", .text "Low", .text "Pending",
           .text "2025-01-01", .text "T0"⟩], 2⟩) ∧
    pyEq (fromSql (SVal.text "123")) (.int 123) = false :=
  ⟨by decide, rfl, rfl⟩

/-- Claim C5 (amended): a successful update of an existing task keeps every
row's id and created_at, overwrites the five mutable columns of the targeted
row with the supplied values as bound through SQLite TEXT affinity — equal
to the supplied values whenever they are strings, which validation
guarantees for priority, status and deadline, while a numeric or boolean
title or description is stored as its decimal text form — and no operation
changes the created_at of a stored row: a create keeps every old row intact
and a delete only removes rows. -/
theorem C5_update_preserves_id_created_at (id : Nat) (fs : List (String × JPrim))
    (st : Store) (hval : validate_task fs = .valid)
    (hex : ∃ r ∈ st.rows, r.id = id) :
    ∃ st2,
      update_task id (.obj fs) none st = .ok ((200, .jmsg "Task updated"), st2) ∧
      st2.nextId = st.nextId ∧
      st2.rows.map Row.id = st.rows.map Row.id ∧
      st2.rows.map Row.created_at = st.rows.map Row.created_at ∧
      (∀ r2 ∈ st2.rows, r2.id = id →
        r2.title = toSql (dgetD fs "title" .null) ∧
        r2.description = toSql (dgetD fs "description" (.str "")) ∧
        r2.priority = toSql (dgetD fs "priority" .null) ∧
        r2.status = toSql (dgetD fs "status" .null) ∧
        r2.deadline = toSql (dgetD fs "deadline" .null)) ∧
      (∀ d2 now resp st3, create_task d2 now none st = .ok (resp, st3) →
        ∀ r ∈ st.rows, r ∈ st3.rows) ∧
      (∀ i2 resp st3, delete_task i2 none st = .ok (resp, st3) →
        ∀ r2 ∈ st3.rows, r2 ∈ st.rows) := by
  have hcp : ¬ st.rows.countP (fun r => r.id == id) = 0 := by
    intro h0
    obtain ⟨r, hr, hid⟩ := hex
    have := List.countP_eq_zero.mp h0 r hr
    simp [hid] at this
  refine ⟨⟨st.rows.map (fun r => if r.id = id then applyUpd fs r else r), st.nextId⟩,
    ?_, rfl, map_upd_ids st.rows id fs, map_upd_created st.rows id fs, ?_, ?_, ?_⟩
  · unfold update_task
    rw [truthy_obj_of_valid hval]
    simp [validateDyn, hval, fieldsOf, hcp]
  · intro r2 hr2 hid2
    obtain ⟨r, hr, hfr⟩ := List.mem_map.mp hr2
    by_cases h : r.id = id
    · rw [if_pos h] at hfr
      subst hfr
      exact ⟨rfl, rfl, rfl, rfl, rfl⟩
    · rw [if_neg h] at hfr
      subst hfr
      exact absurd hid2 h
  · intro d2 now resp st3 hc r hr
    rcases create_task_ok_inv hc with rfl | ⟨-, rfl⟩
    · exact hr
    · exact List.mem_append_left _ hr
  · intro i2 resp st3 hdel r2 hr2
    rw [delete_task_none_store hdel] at hr2
    exact (List.mem_filter.mp hr2).1

/-- Witness for C5 on a one-row store and a full update payload. -/
theorem C5_update_preserves_id_created_at_witness :
    ∃ st2,
      update_task 1 (.obj [("title", .str "B"), ("priority", .str "High"),
        ("status", .str "Completed"), ("deadline", .str "2025-02-02")]) none
        (⟨[⟨1, .text "A", .text "", .text "Low", .text "Pending",
            .text "2025-01-01", .text "T0"⟩], 2⟩ : Store) =
        .ok ((200, .jmsg "Task updated"), st2) ∧
      st2.nextId = (⟨[⟨1, .text "A", .text "", .text "Low", .text "Pending",
            .text "2025-01-01", .text "T0"⟩], 2⟩ : Store).nextId ∧
      st2.rows.map Row.id = [⟨1, .text "A", .text "", .text "Low", .text "Pending",
            .text "2025-01-01", .text "T0"⟩].map Row.id ∧
      st2.rows.map Row.created_at = [⟨1, .text "A", .text "", .text "Low",
            .text "Pending", .text "2025-01-01", .text "T0"⟩].map Row.created_at ∧
      (∀ r2 ∈ st2.rows, r2.id = 1 →
        r2.title = toSql (dgetD [("title", .str "B"), ("priority", .str "High"),
          ("status", .str "Completed"), ("deadline", .str "2025-02-02")] "title" .null) ∧
        r2.description = toSql (dgetD [("title", .str "B"), ("priority", .str "High"),
          ("status", .str "Completed"), ("deadline", .str "2025-02-02")] "description"
          (.str "")) ∧
        r2.priority = toSql (dgetD [("title", .str "B"), ("priority", .str "High"),
          ("status", .str "Completed"), ("deadline", .str "2025-02-02")] "priority" .null) ∧
        r2.status = toSql (dgetD [("title", .str "B"), ("priority", .str "High"),
          ("status", .str "Completed"), ("deadline", .str "2025-02-02")] "status" .null) ∧
        r2.deadline = toSql (dgetD [("title", .str "B"), ("priority", .str "High"),
          ("status", .str "Completed"), ("deadline", .str "2025-02-02")] "deadline" .null)) ∧
      (∀ d2 now resp st3,
        create_task d2 now none (⟨[⟨1, .text "A", .text "", .text "Low", .text "Pending",
            .text "2025-01-01", .text "T0"⟩], 2⟩ : Store) = .ok (resp, st3) →
        ∀ r ∈ (⟨[⟨1, .text "A", .text "", .text "Low", .text "Pending",
            .text "2025-01-01", .text "T0"⟩], 2⟩ : Store).rows, r ∈ st3.rows) ∧
      (∀ i2 resp st3,
        delete_task i2 none (⟨[⟨1, .text "A", .text "", .text "Low", .text "Pending",
            .text "2025-01-01", .text "T0"⟩], 2⟩ : Store) = .ok (resp, st3) →
        ∀ r2 ∈ st3.rows, r2 ∈ (⟨[⟨1, .text "A", .text "", .text "Low", .text "Pending",
            .text "2025-01-01", .text "T0"⟩], 2⟩ : Store).rows) :=
  C5_update_preserves_id_created_at 1
    [("title", .str "B"), ("priority", .str "High"),
     ("status", .str "Completed"), ("deadline", .str "2025-02-02")]
    (⟨[⟨1, .text "A", .text "", .text "Low", .text "Pending",
        .text "2025-01-01", .text "T0"⟩], 2⟩ : Store)
    (by decide) (by decide)

/-- A fault-free create of a validated payload appends the bound row and
advances the id sequence. -/
theorem create_task_valid_eq {fs : List (String × JPrim)} (now : String) (st : Store)
    (h : validate_task fs = .valid) :
    create_task (.obj fs) now none st =
      .ok ((201, .jmsg "Task created"),
           ⟨st.rows ++ [mkRow fs now st.nextId], st.nextId + 1⟩) := by
  unfold create_task
  rw [truthy_obj_of_valid h]
  simp [validateDyn, h, fieldsOf]

/-- Claim C1 counterexample: the payload with the integer title 123 passes
validation (the presence check only needs a truthy value), but the title
column has TEXT affinity, so the store keeps the text 123; the record read
back carries the string 123, which Python equality distinguishes from the
integer input, so the round trip is not an equality in the title field. -/
theorem C1_roundtrip_counterexample :
    validate_task [("title", .int 123), ("priority", .str "Low"),
      ("status", .str "Pending"), ("deadline", .str "2025-01-01")] = .valid ∧
    create_task (.obj [("title", .int 123), ("priority", .str "Low"),
        ("status", .str "Pending"), ("deadline", .str "2025-01-01")])
        "2025-05-01T10:00:00" none initStore =
      .ok ((201, .jmsg "Task created"),
        ⟨[⟨1, .text "123", .text "", .text "Low", .text "Pending",
           .text "2025-01-01", .text "2025-05-01T10:00:00"⟩], 2⟩) ∧
    get_task 1 none
        (⟨[⟨1, .text "123", .text "", .text "Low", .text "Pending",
            .text "2025-01-01", .text "2025-05-01T10:00:00"⟩], 2⟩ : Store) =
      .ok ((200, .jtask [("id", .int 1), ("title", .str "123"),
          ("description", .str ""), ("priority", .str "Low"),
          ("status", .str "Pending"), ("deadline", .str "2025-01-01"),
          ("created_at", .str "2025-05-01T10:00:00")]),
        ⟨[⟨1, .text "123", .text "", .text "Low", .text "Pending",
           .text "2025-01-01", .text "2025-05-01T10:00:00"⟩], 2⟩) ∧
    pyEq (.str "123") (.int 123) = false :=
  ⟨by decide, rfl, rfl, rfl⟩

/-- Claim C1 (amended): for a payload that passes validation, a create
followed by getById on the assigned id returns, over HTTP 201 then 200, a
record whose priority, status and deadline are Python-equal to the input
(validation makes them strings, which the TEXT columns store verbatim),
whose title and description equal the input whenever the supplied value is
a string (TEXT affinity stores a non-string value as its text form, which
reads back unequal), whose description is the empty string when the input
omits it, and whose id and created_at are store-assigned and truthy (the
id sequence value and the insertion timestamp). -/
theorem C1_create_then_get_roundtrip (fs : List (String × JPrim)) (now : String)
    (st : Store) (hval : validate_task fs = .valid) (hnow : now ≠ "")
    (hids : ∀ r ∈ st.rows, r.id < st.nextId) (hpos : 1 ≤ st.nextId) :
    ∃ st2,
      create_task (.obj fs) now none st = .ok ((201, .jmsg "Task created"), st2) ∧
      get_task st.nextId none st2 =
        .ok ((200, .jtask (rowToJson (mkRow fs now st.nextId))), st2) ∧
      pyEq (dgetD (rowToJson (mkRow fs now st.nextId)) "priority" .null)
        (dgetD fs "priority" .null) = true ∧
      pyEq (dgetD (rowToJson (mkRow fs now st.nextId)) "status" .null)
        (dgetD fs "status" .null) = true ∧
      pyEq (dgetD (rowToJson (mkRow fs now st.nextId)) "deadline" .null)
        (dgetD fs "deadline" .null) = true ∧
      (∀ t, dget fs "title" = some (.str t) →
        dgetD (rowToJson (mkRow fs now st.nextId)) "title" .null = .str t) ∧
      (dget fs "description" = none →
        dgetD (rowToJson (mkRow fs now st.nextId)) "description" .null = .str "") ∧
      (∀ d, dget fs "description" = some (.str d) →
        dgetD (rowToJson (mkRow fs now st.nextId)) "description" .null = .str d) ∧
      dgetD (rowToJson (mkRow fs now st.nextId)) "id" .null = .int (st.nextId : Int) ∧
      truthyP (.int (st.nextId : Int)) = true ∧
      dgetD (rowToJson (mkRow fs now st.nextId)) "created_at" .null = .str now ∧
      truthyP (.str now) = true := by
  obtain ⟨-, hp, hq, s, hds, -⟩ := validate_task_valid_inv hval
  obtain ⟨p, hp1, -⟩ := pyInStrs_inv hp
  obtain ⟨q, hq1, -⟩ := pyInStrs_inv hq
  refine ⟨⟨st.rows ++ [mkRow fs now st.nextId], st.nextId + 1⟩,
    create_task_valid_eq now st hval, ?_, ?_, ?_, ?_, ?_, ?_, ?_, rfl, ?_, rfl, ?_⟩
  · have hfind : (st.rows ++ [mkRow fs now st.nextId]).find?
        (fun r => r.id == st.nextId) = some (mkRow fs now st.nextId) := by
      rw [find?_append_of_none (fun r hr => by simp [Nat.ne_of_lt (hids r hr)])]
      simp [List.find?, mkRow]
    unfold get_task
    simp only [hfind]
  · show pyEq (fromSql (toSql (dgetD fs "priority" .null)))
      (dgetD fs "priority" .null) = true
    rw [hp1]
    simp [toSql, fromSql, pyEq]
  · show pyEq (fromSql (toSql (dgetD fs "status" .null)))
      (dgetD fs "status" .null) = true
    rw [hq1]
    simp [toSql, fromSql, pyEq]
  · show pyEq (fromSql (toSql (dgetD fs "deadline" .null)))
      (dgetD fs "deadline" .null) = true
    rw [hds]
    simp [toSql, fromSql, pyEq]
  · intro t h
    show fromSql (toSql (dgetD fs "title" .null)) = .str t
    rw [show dgetD fs "title" .null = .str t by simp [dgetD, h]]
    rfl
  · intro h
    show fromSql (toSql (dgetD fs "description" (.str ""))) = JPrim.str ""
    rw [show dgetD fs "description" (.str "") = .str "" by simp [dgetD, h]]
    rfl
  · intro d h
    show fromSql (toSql (dgetD fs "description" (.str ""))) = .str d
    rw [show dgetD fs "description" (.str "") = .str d by simp [dgetD, h]]
    rfl
  · have hne : st.nextId ≠ 0 := by omega
    have : (st.nextId : Int) ≠ 0 := by exact_mod_cast hne
    simp [truthyP, this]
  · simp [truthyP, hnow]

/-- Witness for C1 (amended): the end-to-end POST example of the spec on the
fresh store, then GET /tasks/1. -/
theorem C1_create_then_get_roundtrip_witness :
    ∃ st2,
      create_task (.obj [("title", .str "A"), ("priority", .str "Low"),
          ("status", .str "Pending"), ("deadline", .str "2025-01-01")])
          "2025-05-01T10:00:00" none initStore =
        .ok ((201, .jmsg "Task created"), st2) ∧
      get_task initStore.nextId none st2 =
        .ok ((200, .jtask (rowToJson (mkRow [("title", .str "A"),
          ("priority", .str "Low"), ("status", .str "Pending"),
          ("deadline", .str "2025-01-01")] "2025-05-01T10:00:00"
          initStore.nextId))), st2) ∧
      pyEq (dgetD (rowToJson (mkRow [("title", .str "A"), ("priority", .str "Low"),
          ("status", .str "Pending"), ("deadline", .str "2025-01-01")]
          "2025-05-01T10:00:00" initStore.nextId)) "priority" .null)
        (dgetD [("title", .str "A"), ("priority", .str "Low"),
          ("status", .str "Pending"), ("deadline", .str "2025-01-01")] "priority" .null) =
        true ∧
      pyEq (dgetD (rowToJson (mkRow [("title", .str "A"), ("priority", .str "Low"),
          ("status", .str "Pending"), ("deadline", .str "2025-01-01")]
          "2025-05-01T10:00:00" initStore.nextId)) "status" .null)
        (dgetD [("title", .str "A"), ("priority", .str "Low"),
          ("status", .str "Pending"), ("deadline", .str "2025-01-01")] "status" .null) =
        true ∧
      pyEq (dgetD (rowToJson (mkRow [("title", .str "A"), ("priority", .str "Low"),
          ("status", .str "Pending"), ("deadline", .str "2025-01-01")]
          "2025-05-01T10:00:00" initStore.nextId)) "deadline" .null)
        (dgetD [("title", .str "A"), ("priority", .str "Low"),
          ("status", .str "Pending"), ("deadline", .str "2025-01-01")] "deadline" .null) =
        true ∧
      (∀ t, dget [("title", .str "A"), ("priority", .str "Low"),
          ("status", .str "Pending"), ("deadline", .str "2025-01-01")] "title" =
          some (.str t) →
        dgetD (rowToJson (mkRow [("title", .str "A"), ("priority", .str "Low"),
          ("status", .str "Pending"), ("deadline", .str "2025-01-01")]
          "2025-05-01T10:00:00" initStore.nextId)) "title" .null = .str t) ∧
      (dget [("title", .str "A"), ("priority", .str "Low"),
          ("status", .str "Pending"), ("deadline", .str "2025-01-01")] "description" =
          none →
        dgetD (rowToJson (mkRow [("title", .str "A"), ("priority", .str "Low"),
          ("status", .str "Pending"), ("deadline", .str "2025-01-01")]
          "2025-05-01T10:00:00" initStore.nextId)) "description" .null = .str "") ∧
      (∀ d, dget [("title", .str "A"), ("priority", .str "Low"),
          ("status", .str "Pending"), ("deadline", .str "2025-01-01")] "description" =
          some (.str d) →
        dgetD (rowToJson (mkRow [("title", .str "A"), ("priority", .str "Low"),
          ("status", .str "Pending"), ("deadline", .str "2025-01-01")]
          "2025-05-01T10:00:00" initStore.nextId)) "description" .null = .str d) ∧
      dgetD (rowToJson (mkRow [("title", .str "A"), ("priority", .str "Low"),
          ("status", .str "Pending"), ("deadline", .str "2025-01-01")]
          "2025-05-01T10:00:00" initStore.nextId)) "id" .null =
        .int (initStore.nextId : Int) ∧
      truthyP (.int (initStore.nextId : Int)) = true ∧
      dgetD (rowToJson (mkRow [("title", .str "A"), ("priority", .str "Low"),
          ("status", .str "Pending"), ("deadline", .str "2025-01-01")]
          "2025-05-01T10:00:00" initStore.nextId)) "created_at" .null =
        .str "2025-05-01T10:00:00" ∧
      truthyP (.str "2025-05-01T10:00:00") = true :=
  C1_create_then_get_roundtrip
    [("title", .str "A"), ("priority", .str "Low"),
     ("status", .str "Pending"), ("deadline", .str "2025-01-01")]
    "2025-05-01T10:00:00" initStore (by decide) (by decide)
    (by simp [initStore]) (by decide)

/-- Claim C8 counterexample: a storage exception during GET /tasks/id is not
caught at the request boundary; the handler has no try block and the
exception escapes instead of being mapped to an error response. -/
theorem C8_uncaught_exception_counterexample :
    get_task 1 (some "disk I/O error") initStore =
      .error (.dbError "disk I/O error") :=
  rfl

/-- Claim C8 (amended): only POST /tasks and GET /tasks wrap their storage
work in a try block, mapping any storage fault to a generic 500 error body;
GET /tasks/id, PUT /tasks/id and DELETE /tasks/id have no handler-level
try block, so a storage fault propagates out of the handler uncaught. -/
theorem C8_fault_handling_amended (m : String) (id : Nat) (data : JVal)
    (now : String) (st : Store) :
    get_tasks (some m) st = .ok ((500, .jerr "Internal server error"), st) ∧
    (validateDyn data = .valid →
      create_task data now (some m) st =
        .ok ((500, .jerr "Internal server error"), st)) ∧
    get_task id (some m) st = .error (.dbError m) ∧
    (validateDyn data = .valid →
      update_task id data (some m) st = .error (.dbError m)) ∧
    delete_task id (some m) st = .error (.dbError m) := by
  refine ⟨rfl, ?_, rfl, ?_, rfl⟩
  · intro hv
    obtain ⟨fs, rfl, hval⟩ := validateDyn_valid_inv hv
    unfold create_task
    rw [truthy_obj_of_valid hval]
    simp [validateDyn, hval]
  · intro hv
    obtain ⟨fs, rfl, hval⟩ := validateDyn_valid_inv hv
    unfold update_task
    rw [truthy_obj_of_valid hval]
    simp [validateDyn, hval]

/-- Witness for C8 (amended) at a concrete fault and a valid payload. -/
theorem C8_fault_handling_amended_witness :
    get_tasks (some "disk I/O error") initStore =
      .ok ((500, .jerr "Internal server error"), initStore) ∧
    create_task (.obj [("title", .str "A"), ("priority", .str "Low"),
        ("status", .str "Pending"), ("deadline", .str "2025-01-01")])
        "T" (some "disk I/O error") initStore =
      .ok ((500, .jerr "Internal server error"), initStore) ∧
    update_task 1 (.obj [("title", .str "A"), ("priority", .str "Low"),
        ("status", .str "Pending"), ("deadline", .str "2025-01-01")])
        (some "disk I/O error") initStore =
      .error (.dbError "disk I/O error") ∧
    delete_task 1 (some "disk I/O error") initStore =
      .error (.dbError "disk I/O error") := by
  have h := C8_fault_handling_amended "disk I/O error" 1
    (.obj [("title", .str "A"), ("priority", .str "Low"),
      ("status", .str "Pending"), ("deadline", .str "2025-01-01")]) "T" initStore
  exact ⟨h.1, h.2.1 (by decide), h.2.2.2.1 (by decide), h.2.2.2.2⟩

/-- The inductive store invariant: every row carries an enumerated priority
and status stored as text and an id below the AUTOINCREMENT sequence value,
which is at least one. -/
def RowsInv (st : Store) : Prop :=
  (∀ r ∈ st.rows,
     (∃ p, r.priority = SVal.text p ∧
       p ∈ (["Low", "Medium", "High"] : List String)) ∧
     (∃ q, r.status = SVal.text q ∧
       q ∈ (["Pending", "In Progress", "Completed"] : List String)) ∧
     r.id < st.nextId) ∧
  1 ≤ st.nextId

/-- Every reachable store satisfies the invariant. -/
theorem reachable_rowsInv {st : Store} (h : Reachable st) : RowsInv st := by
  induction h with
  | init =>
    exact ⟨fun r hr => absurd hr (by simp [initStore]), by decide⟩
  | create hr hc ih =>
    rcases create_task_ok_inv hc with heq | ⟨hvd, heq⟩
    · subst heq; exact ih
    · subst heq
      obtain ⟨fs, rfl, hval⟩ := validateDyn_valid_inv hvd
      obtain ⟨hrows, hpos⟩ := ih
      refine ⟨?_, by dsimp only; omega⟩
      intro r2 hr2
      rcases List.mem_append.mp hr2 with hold | hnew
      · obtain ⟨hp, hq, hlt⟩ := hrows r2 hold
        exact ⟨hp, hq, by dsimp only; omega⟩
      · rw [List.mem_singleton.mp hnew]
        obtain ⟨hp, hq⟩ := mkRow_enums hval
        exact ⟨hp, hq, by dsimp only [mkRow]; omega⟩
  | @update st1 st2 i d resp hr hu ih =>
    rcases update_task_ok_inv hu with heq | ⟨hvd, heq⟩
    · subst heq; exact ih
    · subst heq
      obtain ⟨fs, rfl, hval⟩ := validateDyn_valid_inv hvd
      obtain ⟨hrows, hpos⟩ := ih
      refine ⟨?_, hpos⟩
      intro r2 hr2
      obtain ⟨r, hrmem, hfr⟩ := List.mem_map.mp hr2
      obtain ⟨hp, hq, hlt⟩ := hrows r hrmem
      by_cases hid : r.id = i
      · rw [if_pos hid] at hfr
        subst hfr
        obtain ⟨hp2, hq2⟩ := applyUpd_enums hval
        exact ⟨hp2, hq2, hlt⟩
      · rw [if_neg hid] at hfr
        subst hfr
        exact ⟨hp, hq, hlt⟩
  | delete hr hd ih =>
    have heq := delete_task_none_store hd
    subst heq
    obtain ⟨hrows, hpos⟩ := ih
    refine ⟨?_, hpos⟩
    intro r2 hr2
    exact hrows r2 (List.mem_filter.mp hr2).1

/-- Claim C6: in every reachable store state, every row's priority is one of
Low, Medium, High and its status one of Pending, In Progress, Completed,
stored as text and satisfying the CHECK constraints of the table; every
row's id lies below the AUTOINCREMENT sequence value, which never decreases
under any fault-free create, update or delete; and a create only adds a row
whose id equals the sequence value, an id no stored row carries, so no id is
ever reused after a deletion. -/
theorem C6_reachable_store_invariant (st : Store) (h : Reachable st) :
    (∀ r ∈ st.rows,
       rowCheck r = true ∧
       (∃ p, r.priority = SVal.text p ∧
         p ∈ (["Low", "Medium", "High"] : List String)) ∧
       (∃ q, r.status = SVal.text q ∧
         q ∈ (["Pending", "In Progress", "Completed"] : List String)) ∧
       r.id < st.nextId) ∧
    1 ≤ st.nextId ∧
    (∀ d now resp st2, create_task d now none st = .ok (resp, st2) →
       st.nextId ≤ st2.nextId ∧
       ∀ r2 ∈ st2.rows, r2 ∈ st.rows ∨
         (r2.id = st.nextId ∧ ∀ r ∈ st.rows, r.id ≠ r2.id)) ∧
    (∀ i d resp st2, update_task i d none st = .ok (resp, st2) →
       st.nextId ≤ st2.nextId) ∧
    (∀ i resp st2, delete_task i none st = .ok (resp, st2) →
       st.nextId ≤ st2.nextId) := by
  obtain ⟨hrows, hpos⟩ := reachable_rowsInv h
  refine ⟨?_, hpos, ?_, ?_, ?_⟩
  · intro r hr
    obtain ⟨hp, hq, hlt⟩ := hrows r hr
    exact ⟨rowCheck_of_enums hp hq, hp, hq, hlt⟩
  · intro d now resp st2 hc
    rcases create_task_ok_inv hc with heq | ⟨hvd, heq⟩
    · subst heq
      exact ⟨le_refl _, fun r2 hr2 => Or.inl hr2⟩
    · subst heq
      refine ⟨by simp, ?_⟩
      intro r2 hr2
      rcases List.mem_append.mp hr2 with hold | hnew
      · exact Or.inl hold
      · rw [List.mem_singleton.mp hnew]
        refine Or.inr ⟨rfl, ?_⟩
        intro r hrmem
        have hlt := (hrows r hrmem).2.2
        simp [mkRow]
        omega
  · intro i d resp st2 hu
    rcases update_task_ok_inv hu with heq | ⟨-, heq⟩ <;> subst heq
    · exact le_refl _
    · exact le_refl _
  · intro i resp st2 hd
    rw [delete_task_none_store hd]

/-- Witness for C6: the invariant holds at the store reached by one create
from the fresh database. -/
theorem C6_reachable_store_invariant_witness :
    (∀ r ∈ (⟨[⟨1, .text "A", .text "", .text "Low", .text "Pending",
         .text "2025-01-01", .text "T"⟩], 2⟩ : Store).rows,
       rowCheck r = true ∧
       (∃ p, r.priority = SVal.text p ∧
         p ∈ (["Low", "Medium", "High"] : List String)) ∧
       (∃ q, r.status = SVal.text q ∧
         q ∈ (["Pending", "In Progress", "Completed"] : List String)) ∧
       r.id < (⟨[⟨1, .text "A", .text "", .text "Low", .text "Pending",
         .text "2025-01-01", .text "T"⟩], 2⟩ : Store).nextId) ∧
    1 ≤ (⟨[⟨1, .text "A", .text "", .text "Low", .text "Pending",
         .text "2025-01-01", .text "T"⟩], 2⟩ : Store).nextId ∧
    (∀ d now resp st2, create_task d now none
         (⟨[⟨1, .text "A", .text "", .text "Low", .text "Pending",
           .text "2025-01-01", .text "T"⟩], 2⟩ : Store) = .ok (resp, st2) →
       (⟨[⟨1, .text "A", .text "", .text "Low", .text "Pending",
           .text "2025-01-01", .text "T"⟩], 2⟩ : Store).nextId ≤ st2.nextId ∧
       ∀ r2 ∈ st2.rows, r2 ∈ (⟨[⟨1, .text "A", .text "", .text "Low",
           .text "Pending", .text "2025-01-01", .text "T"⟩], 2⟩ : Store).rows ∨
         (r2.id = (⟨[⟨1, .text "A", .text "", .text "Low", .text "Pending",
             .text "2025-01-01", .text "T"⟩], 2⟩ : Store).nextId ∧
          ∀ r ∈ (⟨[⟨1, .text "A", .text "", .text "Low", .text "Pending",
             .text "2025-01-01", .text "T"⟩], 2⟩ : Store).rows, r.id ≠ r2.id)) ∧
    (∀ i d resp st2, update_task i d none
         (⟨[⟨1, .text "A", .text "", .text "Low", .text "Pending",
           .text "2025-01-01", .text "T"⟩], 2⟩ : Store) = .ok (resp, st2) →
       (⟨[⟨1, .text "A", .text "", .text "Low", .text "Pending",
           .text "2025-01-01", .text "T"⟩], 2⟩ : Store).nextId ≤ st2.nextId) ∧
    (∀ i resp st2, delete_task i none
         (⟨[⟨1, .text "A", .text "", .text "Low", .text "Pending",
           .text "2025-01-01", .text "T"⟩], 2⟩ : Store) = .ok (resp, st2) →
       (⟨[⟨1, .text "A", .text "", .text "Low", .text "Pending",
           .text "2025-01-01", .text "T"⟩], 2⟩ : Store).nextId ≤ st2.nextId) :=
  C6_reachable_store_invariant
    (⟨[⟨1, .text "A", .text "", .text "Low", .text "Pending",
       .text "2025-01-01", .text "T"⟩], 2⟩ : Store)
    (@Reachable.create initStore
       (⟨[⟨1, .text "A", .text "", .text "Low", .text "Pending",
          .text "2025-01-01", .text "T"⟩], 2⟩ : Store)
       (.obj [("title", .str "A"), ("priority", .str "Low"),
         ("status", .str "Pending"), ("deadline", .str "2025-01-01")])
       "T" (201, .jmsg "Task created") Reachable.init rfl)

end PMD
